import Mathlib

/-!
# Sharing-Group Lifecycle and Payment Reconciliation: a shallow embedding

This file embeds the sharing/payment core of the `oneai` backend in Lean 4
and settles the frozen claims about it.

Sources embedded (names kept where Lean allows):
* `backend/sharing.js` — the join / confirm-payment / leave route handlers,
  `calculateProRatedRefund`, `processRefund`.
* the payment service module — the Stripe webhook endpoint,
  `handleWebhookEvent` and its per-event handlers.
* the database module — `updatePaymentLog`, `savePaymentLog`,
  `updateSharingParticipantStatus`, `updateSharingPaymentStatus`,
  `checkSharingGroupPaymentComplete`, `activateSharingGroup`,
  `removeSharingParticipant`, `updateSubscriptionStatus`.

Modelling conventions:
* The database is a record of lists of rows; SQL `UPDATE ... WHERE c` becomes
  `List.map (fun r => if c r then update r else r)`, SQL `COUNT(*)` a
  `List.filter`/`List.length`.  Timestamp columns that the logic only tests
  for presence (`started_at`, `left_at`, `completed_at`,
  `payment_completed_at`) are Booleans.
* JavaScript numbers are exact rationals (`ℚ`); `Math.round` is Mathlib's
  `round` (`⌊x + 1/2⌋`, which is `Math.round`'s rounding rule).
* External effects (Stripe API calls, e-mails, notifications) are modelled by
  Boolean outcome parameters where a handler branches on them, and are
  otherwise outside the modelled state.  Gateway webhook payloads are records
  of exactly the fields the handlers read.
* Several route handlers run some statements on the transaction `connection`
  and others on the auto-committing `pool`; where this matters (a `COUNT`
  executed on the pool does not see this transaction's uncommitted `UPDATE`)
  the embedding counts on the pre-update row list, matching read-committed
  PostgreSQL semantics.
-/

namespace OneAI

/-- A row of `sharing_participants` (schema from the database module).
`status` and `payment_status` are free-form `VARCHAR` columns, hence
`String`s.  `leftAt`/`paymentCompletedAt` model whether the corresponding
timestamp column is set. -/
structure Participant where
  sharingId : Nat
  userId : Nat
  status : String
  paymentStatus : String
  monthlyCost : Int
  paymentIntentId : Option String
  leftAt : Bool
  paymentCompletedAt : Bool
deriving Repr, DecidableEq

/-- A row of `sharings`.  `startedAt` models whether `started_at` is set;
`currentParticipants` is the cached counter column that only
`removeSharingParticipant` recomputes. -/
structure Sharing where
  sid : Nat
  creatorId : Nat
  serviceType : String
  customPrice : Option ℚ
  maxParticipants : Nat
  status : String
  startedAt : Bool
  currentParticipants : Nat
deriving Repr, DecidableEq

/-- A row of `payment_logs`.  The join route inserts rows keyed by the
`stripe_payment_intent_id` column while `savePaymentLog` /
`updatePaymentLog` use the separate `stripe_id` column; both are kept. -/
structure PaymentLog where
  userId : Option Nat
  sharingId : Option Nat
  ltype : String
  stripeId : Option String
  stripePaymentIntentId : Option String
  amount : Option Int
  status : String
  completedAt : Bool
  failureReason : Option String
deriving Repr, DecidableEq

/-- A row of `subscriptions` (the columns the handlers touch). -/
structure Subscription where
  userId : Option Nat
  stripeSubscriptionId : String
  sharingId : Option Nat
  status : String
  cancelAtPeriodEnd : Bool
  deletedAt : Bool
deriving Repr, DecidableEq

/-- A row of `refunds` (inserted by `processRefund` in `sharing.js`). -/
structure Refund where
  userId : Nat
  amount : Int
  sharingId : Nat
  status : String
deriving Repr, DecidableEq

/-- The database state shared by the route handlers and the webhook
reconciler. -/
structure DB where
  sharings : List Sharing
  participants : List Participant
  paymentLogs : List PaymentLog
  subscriptions : List Subscription
  refunds : List Refund
deriving Repr, DecidableEq

attribute [ext] DB

/-- Stripe object `metadata`.  The join route writes the snake_case keys
`sharing_id` / `user_id`; the payment service reads the camelCase keys
`sharingId` / `userId`.  Absent keys (and the `sharingId || ''` empty-string
defaults, which are falsy in the handlers' `if` tests) are `none`. -/
structure Metadata where
  userId : Option Nat
  sharingId : Option Nat
  snakeSharingId : Option Nat
  snakeUserId : Option Nat
deriving Repr, DecidableEq

/-- A Stripe payment-intent object as read by the intent handlers. -/
structure IntentObj where
  id : String
  metadata : Metadata
  lastPaymentError : Option String
deriving Repr, DecidableEq

/-- A Stripe subscription object as read by the subscription/invoice
handlers (for invoices, the object returned by
`stripe.subscriptions.retrieve(invoice.subscription)`). -/
structure SubObj where
  id : String
  status : String
  cancelAtPeriodEnd : Bool
  metadata : Metadata
deriving Repr, DecidableEq

/-- A normalized inbound webhook event: the constructor is the `event.type`
the dispatcher switches on, `eventId` is the external event ID `event.id`,
`occurredAt` the event's own timestamp, and the payload is `event.data.object`
(with the retrieved subscription inlined for invoice events). -/
inductive WebhookEvent where
  | intentSucceeded (eventId : String) (occurredAt : Nat) (intent : IntentObj)
  | intentFailed (eventId : String) (occurredAt : Nat) (intent : IntentObj)
  | invoicePaid (eventId : String) (occurredAt : Nat) (sub : SubObj)
  | invoiceFailed (eventId : String) (occurredAt : Nat) (sub : SubObj)
  | subUpdated (eventId : String) (occurredAt : Nat) (sub : SubObj)
  | subDeleted (eventId : String) (occurredAt : Nat) (sub : SubObj)
  | unhandled (eventId : String) (occurredAt : Nat) (etype : String)
deriving Repr, DecidableEq

/-- Replace an event's external event ID, keeping the payload. -/
def WebhookEvent.withEventId : WebhookEvent → String → WebhookEvent
  | .intentSucceeded _ t o, e => .intentSucceeded e t o
  | .intentFailed _ t o, e => .intentFailed e t o
  | .invoicePaid _ t o, e => .invoicePaid e t o
  | .invoiceFailed _ t o, e => .invoiceFailed e t o
  | .subUpdated _ t o, e => .subUpdated e t o
  | .subDeleted _ t o, e => .subDeleted e t o
  | .unhandled _ t ty, e => .unhandled e t ty

/-- Replace an event's timestamp, keeping the payload. -/
def WebhookEvent.withOccurredAt : WebhookEvent → Nat → WebhookEvent
  | .intentSucceeded e _ o, t => .intentSucceeded e t o
  | .intentFailed e _ o, t => .intentFailed e t o
  | .invoicePaid e _ o, t => .invoicePaid e t o
  | .invoiceFailed e _ o, t => .invoiceFailed e t o
  | .subUpdated e _ o, t => .subUpdated e t o
  | .subDeleted e _ o, t => .subDeleted e t o
  | .unhandled e _ ty, t => .unhandled e t ty

/-! ## Database helper functions (database module) -/

/-- The per-row effect of `updatePaymentLog`: fields are set only when the
update object carries a truthy value for them. -/
def paymentLogRowUpdate (stripeId : String) (st : Option String)
    (completed : Bool) (failure : Option String) (l : PaymentLog) : PaymentLog :=
  if l.stripeId == some stripeId then
    { l with
      status := st.getD l.status
      completedAt := l.completedAt || completed
      failureReason := match failure with
        | some m => some m
        | none => l.failureReason }
  else l

/-- Embeds `updatePaymentLog(stripeId, {status, completedAt, failureReason})`:
`UPDATE payment_logs SET ... WHERE stripe_id = $n`. -/
def updatePaymentLog (db : DB) (stripeId : String) (st : Option String)
    (completed : Bool) (failure : Option String) : DB :=
  { db with paymentLogs :=
      db.paymentLogs.map (paymentLogRowUpdate stripeId st completed failure) }

/-- Embeds `savePaymentLog`: `INSERT INTO payment_logs (user_id, type,
stripe_id, amount, currency, description, metadata, status, ...)`. -/
def savePaymentLog (db : DB) (uid : Option Nat) (ltype : String)
    (stripeId : String) (amount : Option Int) (st : String) : DB :=
  { db with paymentLogs := db.paymentLogs ++
      [{ userId := uid, sharingId := none, ltype := ltype,
         stripeId := some stripeId, stripePaymentIntentId := none,
         amount := amount, status := st, completedAt := false,
         failureReason := none }] }

/-- The per-row effect of `updateSharingParticipantStatus`.  A missing
`userId` (undefined in the caller) matches no row. -/
def participantStatusRowUpdate (sid : Nat) (uid : Option Nat) (st : String)
    (p : Participant) : Participant :=
  if p.sharingId == sid && some p.userId == uid then { p with status := st }
  else p

/-- Embeds `updateSharingParticipantStatus(sharingId, userId, status)`:
`UPDATE sharing_participants SET status = $1 WHERE sharing_id = $2 AND
user_id = $3`. -/
def updateSharingParticipantStatus (db : DB) (sid : Nat) (uid : Option Nat)
    (st : String) : DB :=
  { db with participants :=
      db.participants.map (participantStatusRowUpdate sid uid st) }

/-- The per-row effect of `updateSharingPaymentStatus`. -/
def participantPayStatusRowUpdate (sid : Nat) (uid : Option Nat) (st : String)
    (p : Participant) : Participant :=
  if p.sharingId == sid && some p.userId == uid then { p with paymentStatus := st }
  else p

/-- Embeds `updateSharingPaymentStatus(sharingId, userId, status)`:
`UPDATE sharing_participants SET payment_status = $1, last_payment_at =
NOW() WHERE sharing_id = $2 AND user_id = $3`. -/
def updateSharingPaymentStatus (db : DB) (sid : Nat) (uid : Option Nat)
    (st : String) : DB :=
  { db with participants :=
      db.participants.map (participantPayStatusRowUpdate sid uid st) }

/-- Embeds `checkSharingGroupPaymentComplete(sharingId)`: counts the rows of
the group with `status = 'approved'` and returns whether all of them have
`payment_status = 'paid'` and there is at least one. -/
def checkSharingGroupPaymentComplete (db : DB) (sid : Nat) : Bool :=
  let rows := db.participants.filter
    (fun p => p.sharingId == sid && p.status == "approved")
  let total := rows.length
  let paid := (rows.filter (fun p => p.paymentStatus == "paid")).length
  total == paid && total > 0

/-- The per-row effect of `activateSharingGroup`. -/
def sharingActivateRowUpdate (sid : Nat) (s : Sharing) : Sharing :=
  if s.sid == sid then { s with status := "active" } else s

/-- Embeds `activateSharingGroup(sharingId)`: `UPDATE sharings SET status =
'active' WHERE id = $1` (it does not set `started_at`). -/
def activateSharingGroup (db : DB) (sid : Nat) : DB :=
  { db with sharings := db.sharings.map (sharingActivateRowUpdate sid) }

/-- Embeds `removeSharingParticipant(sharingId, userId)`: marks the row
`left` and recomputes the cached `current_participants` counter from the
rows with status `approved` or `pending`. -/
def removeSharingParticipant (db : DB) (sid : Nat) (uid : Option Nat) : DB :=
  let ps := db.participants.map (participantStatusRowUpdate sid uid "left")
  let cnt := (ps.filter (fun p =>
    p.sharingId == sid && (p.status == "approved" || p.status == "pending"))).length
  { db with
    participants := ps
    sharings := db.sharings.map (fun s =>
      if s.sid == sid then { s with currentParticipants := cnt } else s) }

/-- The per-row effect of `updateSubscriptionStatus`. -/
def subscriptionRowUpdate (subId : String) (st : Option String)
    (cape : Option Bool) (deleted : Bool) (s : Subscription) : Subscription :=
  if s.stripeSubscriptionId == subId then
    { s with
      status := st.getD s.status
      cancelAtPeriodEnd := cape.getD s.cancelAtPeriodEnd
      deletedAt := s.deletedAt || deleted }
  else s

/-- Embeds `updateSubscriptionStatus(subscriptionId, updates)` restricted to
the fields the handlers pass: `status`, `cancel_at_period_end`,
`deleted_at`. -/
def updateSubscriptionStatus (db : DB) (subId : String) (st : Option String)
    (cape : Option Bool) (deleted : Bool) : DB :=
  { db with subscriptions :=
      db.subscriptions.map (subscriptionRowUpdate subId st cape deleted) }

/-! ## Webhook reconciler (payment service module) -/

/-- Embeds `handlePaymentSuccess(paymentIntent)`: update the payment log to
`succeeded`, and — only when `metadata.sharingId` is present — set the
participant's status to `'paid'`, then activate the group if
`checkSharingGroupPaymentComplete` says every `approved` participant has
paid. -/
def handlePaymentSuccess (db : DB) (intent : IntentObj) : DB :=
  let db1 := updatePaymentLog db intent.id (some "succeeded") true none
  match intent.metadata.sharingId with
  | none => db1
  | some sid =>
      let db2 := updateSharingParticipantStatus db1 sid intent.metadata.userId "paid"
      if checkSharingGroupPaymentComplete db2 sid then
        activateSharingGroup db2 sid
      else db2

/-- Embeds `handlePaymentFailed(paymentIntent)`: only the payment log is
updated (status `failed`, failure reason); no participant or group row is
touched. -/
def handlePaymentFailed (db : DB) (intent : IntentObj) : DB :=
  updatePaymentLog db intent.id (some "failed") false intent.lastPaymentError

/-- Embeds `handleInvoicePaymentSuccess(invoice)` (with the retrieved
subscription inlined): refresh the subscription row, then set
`payment_status = 'paid'` when the subscription metadata names a group. -/
def handleInvoicePaymentSuccess (db : DB) (sub : SubObj) : DB :=
  let db1 := updateSubscriptionStatus db sub.id (some sub.status) none false
  match sub.metadata.sharingId with
  | none => db1
  | some sid => updateSharingPaymentStatus db1 sid sub.metadata.userId "paid"

/-- Embeds `handleInvoicePaymentFailed(invoice)`: set `payment_status =
'failed'` when the subscription metadata names a group (the subscription row
itself is not updated on this path). -/
def handleInvoicePaymentFailed (db : DB) (sub : SubObj) : DB :=
  match sub.metadata.sharingId with
  | none => db
  | some sid => updateSharingPaymentStatus db sid sub.metadata.userId "failed"

/-- Embeds `handleSubscriptionUpdated(subscription)`: refresh the
subscription row; for gateway status `active` / `past_due` / `canceled`
write that same string into the participant's `status` column; finally
append a `subscription_updated` payment-log entry. -/
def handleSubscriptionUpdated (db : DB) (sub : SubObj) : DB :=
  let db1 := updateSubscriptionStatus db sub.id (some sub.status)
    (some sub.cancelAtPeriodEnd) false
  let db2 :=
    if sub.status == "active" then
      match sub.metadata.sharingId with
      | some sid => updateSharingParticipantStatus db1 sid sub.metadata.userId "active"
      | none => db1
    else if sub.status == "past_due" then
      match sub.metadata.sharingId with
      | some sid => updateSharingParticipantStatus db1 sid sub.metadata.userId "past_due"
      | none => db1
    else if sub.status == "canceled" then
      match sub.metadata.sharingId with
      | some sid => updateSharingParticipantStatus db1 sid sub.metadata.userId "canceled"
      | none => db1
    else db1
  savePaymentLog db2 sub.metadata.userId "subscription_updated" sub.id none sub.status

/-- Embeds `handleSubscriptionDeleted(subscription)`: mark the subscription
row deleted, remove the participant (status `left`) when the metadata names
a group, and append a `subscription_deleted` payment-log entry. -/
def handleSubscriptionDeleted (db : DB) (sub : SubObj) : DB :=
  let db1 := updateSubscriptionStatus db sub.id (some "deleted") none true
  let db2 :=
    match sub.metadata.sharingId with
    | some sid => removeSharingParticipant db1 sid sub.metadata.userId
    | none => db1
  savePaymentLog db2 sub.metadata.userId "subscription_deleted" sub.id none "deleted"

/-- Embeds `handleWebhookEvent(event)`: the dispatch switch on
`event.type`.  Neither the dispatcher nor any handler reads `event.id` or
the event timestamp. -/
def handleWebhookEvent (db : DB) : WebhookEvent → DB
  | .intentSucceeded _ _ o => handlePaymentSuccess db o
  | .intentFailed _ _ o => handlePaymentFailed db o
  | .invoicePaid _ _ o => handleInvoicePaymentSuccess db o
  | .invoiceFailed _ _ o => handleInvoicePaymentFailed db o
  | .subUpdated _ _ o => handleSubscriptionUpdated db o
  | .subDeleted _ _ o => handleSubscriptionDeleted db o
  | .unhandled _ _ _ => db

/-- Embeds `POST /api/payment/webhook`: `stripe.webhooks.constructEvent`
either validates the signature (modelled by `sigValid`) or throws, in which
case the endpoint answers HTTP 400 without dispatching.  The pair returned
is (database state, HTTP status code). -/
def webhookEndpoint (db : DB) (sigValid : Bool) (e : WebhookEvent) : DB × Nat :=
  if sigValid then (handleWebhookEvent db e, 200)
  else (db, 400)

/-! ## Sharing route handlers (`backend/sharing.js`) -/

/-- The number of the group's participants with `status = 'active'`: the
count computed by the `LEFT JOIN ... AND sp.status = 'active'` in the join
route and by the `SELECT COUNT(*)` in the confirm-payment and leave
routes. -/
def activeParticipantCount (db : DB) (sid : Nat) : Nat :=
  (db.participants.filter (fun p => p.sharingId == sid && p.status == "active")).length

/-- The `AI_SERVICES` price table (USD). -/
def servicePrice : String → Option ℚ
  | "chatgpt-plus" => some 20
  | "claude-pro" => some 20
  | "midjourney-pro" => some 30
  | "perplexity-pro" => some 20
  | "gemini-pro" => some 20
  | "github-copilot" => some 10
  | _ => none

/-- The 10% `FEE_RATE` constant. -/
def FEE_RATE : ℚ := 1 / 10

/-- The per-participant amount in KRW computed by the join route:
`basePrice = custom_price || service price || 0` (JavaScript `||`: a zero
custom price falls through), `individualCost = basePrice / max`,
`totalCost = individualCost * (1 + FEE_RATE)`,
`Math.round(totalCost * 1380)`. -/
def joinTotalCostKRW (s : Sharing) : Int :=
  let base : ℚ :=
    match s.customPrice with
    | some c => if c = 0 then (servicePrice s.serviceType).getD 0 else c
    | none => (servicePrice s.serviceType).getD 0
  let individualCost := base / s.maxParticipants
  let fee := individualCost * FEE_RATE
  round ((individualCost + fee) * 1380)

/-- The group lookup of the join route: `SELECT ... FROM sharings ... WHERE
s.id = ? AND s.status = 'recruiting'`. -/
def joinGroupLookup (db : DB) (sid : Nat) : Option Sharing :=
  (db.sharings.filter (fun s => s.sid == sid && s.status == "recruiting")).head?

/-- The already-joined test of the join route: an existing row for the user
with status `pending` or `active`. -/
def joinAlreadyJoined (db : DB) (sid uid : Nat) : Bool :=
  0 < (db.participants.filter (fun p =>
    p.sharingId == sid && p.userId == uid &&
      (p.status == "pending" || p.status == "active"))).length

/-- Outcome of `POST /api/sharing/:id/join`.  `success` is the documented
200 response `{participant_id, payment_intent: {...}, monthly_cost}`;
`serverError` is the route's catch-all 500 with transaction rollback. -/
inductive JoinResult where
  | notFound
  | alreadyJoined
  | groupFull
  | intentCreateFailed
  | serverError
  | success (participantId : Nat) (intentId : String) (amount : Int)
deriving Repr, DecidableEq

/-- Embeds `POST /api/sharing/:id/join`.  After the group, membership and
capacity gates, the route creates the Stripe payment intent (outcome
modelled by `stripeOk`) inside an inner `try` block; `paymentIntent` is a
`const` local to that block, so the participant `INSERT` that follows the
block throws `ReferenceError: paymentIntent is not defined`, the outer
`catch` rolls the transaction back, and the route answers 500.  The
`success` outcome is therefore unreachable and the database is returned
unchanged on every path. -/
def joinHandler (db : DB) (sid uid : Nat) (stripeOk : Bool) : DB × JoinResult :=
  match joinGroupLookup db sid with
  | none => (db, .notFound)
  | some sharingInfo =>
      if joinAlreadyJoined db sid uid then (db, .alreadyJoined)
      else if sharingInfo.maxParticipants ≤ activeParticipantCount db sid then
        (db, .groupFull)
      else if !stripeOk then (db, .intentCreateFailed)
      else (db, .serverError)

/-- Outcome of `POST /api/sharing/:id/confirm-payment`. -/
inductive ConfirmResult where
  | notCompleted
  | serverError
  | success (sharingStatus : String) (participantCount : Nat)
deriving Repr, DecidableEq

/-- The per-row effect of confirm-payment's participant `UPDATE`:
`SET status = 'active', payment_completed_at = NOW() WHERE sharing_id = ?
AND user_id = ? AND payment_intent_id = ?` (no status guard). -/
def confirmParticipantRowUpdate (sid uid : Nat) (intentId : String)
    (p : Participant) : Participant :=
  if p.sharingId == sid && p.userId == uid && p.paymentIntentId == some intentId then
    { p with status := "active", paymentCompletedAt := true }
  else p

/-- The per-row effect of confirm-payment's payment-log `UPDATE`:
`SET status = 'succeeded', completed_at = NOW() WHERE
stripe_payment_intent_id = ?`. -/
def confirmLogRowUpdate (intentId : String) (l : PaymentLog) : PaymentLog :=
  if l.stripePaymentIntentId == some intentId then
    { l with status := "succeeded", completedAt := true }
  else l

/-- The per-row effect of confirm-payment's group activation `UPDATE`:
`SET status = 'active', started_at = NOW() WHERE id = ?`. -/
def confirmActivateRowUpdate (sid : Nat) (s : Sharing) : Sharing :=
  if s.sid == sid then { s with status := "active", startedAt := true } else s

/-- Embeds `POST /api/sharing/:id/confirm-payment`.  `gatewayIntentStatus`
is the status `stripe.paymentIntents.retrieve` reports.  The participant and
payment-log `UPDATE`s run on the transaction connection, but the
`COUNT(*)` of active participants and the `sharings` lookup run on the
pool, so they see the pre-update committed rows; the activation test
compares that stale count against `max_participants`.  When the `sharings`
lookup returns no row the route dereferences `undefined`
(`sharingInfo.max_participants`), the transaction is rolled back and the
route answers 500. -/
def confirmPayment (db : DB) (sid uid : Nat) (intentId : String)
    (gatewayIntentStatus : String) : DB × ConfirmResult :=
  if gatewayIntentStatus != "succeeded" then (db, .notCompleted)
  else
    match db.sharings.find? (fun s => s.sid == sid) with
    | none => (db, .serverError)
    | some sharingInfo =>
        let ps := db.participants.map (confirmParticipantRowUpdate sid uid intentId)
        let logs := db.paymentLogs.map (confirmLogRowUpdate intentId)
        let activeCount := activeParticipantCount db sid
        let shs :=
          if sharingInfo.maxParticipants ≤ activeCount then
            db.sharings.map (confirmActivateRowUpdate sid)
          else db.sharings
        ({ db with participants := ps, paymentLogs := logs, sharings := shs },
         .success (if sharingInfo.maxParticipants ≤ activeCount then "active"
                   else "recruiting") activeCount)

/-- Embeds `calculateProRatedRefund(monthlyAmount)` with the date made
explicit: `daysInMonth` days in the current month of which `daysPassed`
have passed; the result is
`Math.round((monthlyAmount / daysInMonth) * remainingDays)`. -/
def calculateProRatedRefund (monthlyAmount : Int) (daysInMonth daysPassed : Nat) : Int :=
  round (((monthlyAmount : ℚ) / (daysInMonth : ℚ)) *
    ((daysInMonth : ℚ) - (daysPassed : ℚ)))

/-- Embeds `processRefund({user_id, amount, reason, sharing_id})`: inserts a
`refunds` row with status `'completed'` and returns `{success: true}`, or —
when the insert fails (`insertFails`) — catches the error itself and returns
`{success: false}` without throwing.  It runs on the pool, outside the leave
route's transaction. -/
def processRefund (db : DB) (uid : Nat) (amount : Int) (sid : Nat)
    (insertFails : Bool) : DB × Bool :=
  if insertFails then (db, false)
  else ({ db with refunds := db.refunds ++
            [{ userId := uid, amount := amount, sharingId := sid,
               status := "completed" }] }, true)

/-- The participant-and-group lookup of the leave route: the `JOIN` of the
user's `status = 'active'` participant row with its `sharings` row. -/
def leaveLookup (db : DB) (sid uid : Nat) : Option (Participant × Sharing) :=
  match (db.participants.filter (fun p =>
           p.sharingId == sid && p.userId == uid && p.status == "active")).head?,
        db.sharings.find? (fun s => s.sid == sid) with
  | some p, some s => some (p, s)
  | _, _ => none

/-- Outcome of `POST /api/sharing/:id/leave`.  `success` carries the
route's `{refund_processed, remaining_participants}` payload. -/
inductive LeaveResult where
  | notFound
  | creatorCannotLeave
  | success (refundProcessed : Bool) (remaining : Nat)
deriving Repr, DecidableEq

/-- The per-row effect of the leave route's participant `UPDATE`:
`SET status = 'left', left_at = NOW() WHERE sharing_id = ? AND user_id = ?`
(no status guard). -/
def leaveRowUpdate (sid uid : Nat) (p : Participant) : Participant :=
  if p.sharingId == sid && p.userId == uid then
    { p with status := "left", leftAt := true }
  else p

/-- The per-row effect of the leave route's demotion `UPDATE`:
`SET status = 'recruiting', started_at = NULL WHERE id = ?`. -/
def demoteRowUpdate (sid : Nat) (s : Sharing) : Sharing :=
  if s.sid == sid then { s with status := "recruiting", startedAt := false }
  else s

/-- Embeds `POST /api/sharing/:id/leave`.  When the group is `active` the
route calls `processRefund` (whose failure it ignores: the returned
`{success}` flag is never read), then marks the participant `left` on the
transaction connection.  The `COUNT(*)` that decides demotion to
`recruiting` and fills `remaining_participants` runs on the pool and
therefore still counts the leaver.  `refund_processed` in the response is
literally `sharing_status === 'active'`, independent of the refund
outcome. -/
def leaveHandler (db : DB) (sid uid : Nat) (daysInMonth daysPassed : Nat)
    (refundInsertFails : Bool) : DB × LeaveResult :=
  match leaveLookup db sid uid with
  | none => (db, .notFound)
  | some (participantInfo, sharingInfo) =>
      if sharingInfo.creatorId == uid then (db, .creatorCannotLeave)
      else
        let db1 :=
          if sharingInfo.status == "active" then
            let refundAmount :=
              calculateProRatedRefund participantInfo.monthlyCost daysInMonth daysPassed
            if 0 < refundAmount then
              (processRefund db uid refundAmount sid refundInsertFails).1
            else db
          else db
        let ps := db1.participants.map (leaveRowUpdate sid uid)
        let activeCount := activeParticipantCount db1 sid
        let shs :=
          if activeCount < 2 then db1.sharings.map (demoteRowUpdate sid)
          else db1.sharings
        ({ db1 with participants := ps, sharings := shs },
         .success (sharingInfo.status == "active") activeCount)

/-! ## The operations as a single step type -/

/-- One inbound request against the modelled core: a webhook delivery or one
of the three sharing routes. -/
inductive SysOp where
  | webhookDelivery (sigValid : Bool) (e : WebhookEvent)
  | confirmReq (sid uid : Nat) (intentId : String) (gatewayIntentStatus : String)
  | joinReq (sid uid : Nat) (stripeOk : Bool)
  | leaveReq (sid uid : Nat) (daysInMonth daysPassed : Nat) (refundInsertFails : Bool)

/-- The database state after one operation. -/
def applyOp (db : DB) : SysOp → DB
  | .webhookDelivery sv e => (webhookEndpoint db sv e).1
  | .confirmReq sid uid intentId gw => (confirmPayment db sid uid intentId gw).1
  | .joinReq sid uid ok => (joinHandler db sid uid ok).1
  | .leaveReq sid uid dim dp rf => (leaveHandler db sid uid dim dp rf).1

/-! ## Spec-side definitions -/

/-- Modelled from the spec: the capacity invariant `count(participants
where status=Active) <= max_participants` for every group. -/
def capacityInvariant (db : DB) : Bool :=
  db.sharings.all (fun s => activeParticipantCount db s.sid ≤ s.maxParticipants)

/-- Modelled from the spec: the Proration Calculator formula
`round(monthly_cost / days_in_current_billing_month × days_remaining)`. -/
def specRefundFormula (monthlyCost : Int) (daysInBillingMonth daysRemaining : Nat) : Int :=
  round ((monthlyCost : ℚ) / (daysInBillingMonth : ℚ) * (daysRemaining : ℚ))

/-- The participant statuses the spec's data model allows. -/
def specParticipantStatuses : List String :=
  ["pending", "active", "payment_failed", "left"]

/-- The participant statuses the code actually stores: the spec's set minus
the never-written `payment_failed`, plus the values `paid`, `past_due` and
`canceled` written by the webhook handlers. -/
def writtenParticipantStatuses : List String :=
  ["pending", "active", "left", "paid", "past_due", "canceled"]

/-- The metadata the join route attaches to the Stripe payment intents it
creates: the snake_case keys `sharing_id` and `user_id` (plus `type` and
`service_type`); the camelCase keys the webhook success handler reads are
absent. -/
def joinIntentMetadata (sid uid : Nat) : Metadata :=
  { userId := none, sharingId := none,
    snakeSharingId := some sid, snakeUserId := some uid }

/-! ## Concrete instances used by counterexamples and witnesses -/

/-- Group 1: capacity 2, created by user 1, currently `active`. -/
def groupOne : Sharing :=
  { sid := 1, creatorId := 1, serviceType := "claude-pro", customPrice := none,
    maxParticipants := 2, status := "active", startedAt := true,
    currentParticipants := 0 }

/-- An `active` participant of group 1. -/
def memberOne : Participant :=
  { sharingId := 1, userId := 1, status := "active", paymentStatus := "pending",
    monthlyCost := 30000, paymentIntentId := none, leftAt := false,
    paymentCompletedAt := false }

/-- A second `active` participant of group 1. -/
def memberTwo : Participant :=
  { sharingId := 1, userId := 2, status := "active", paymentStatus := "pending",
    monthlyCost := 30000, paymentIntentId := none, leftAt := false,
    paymentCompletedAt := false }

/-- A `pending` participant of group 1 holding payment intent `pi3`. -/
def memberThreePending : Participant :=
  { sharingId := 1, userId := 3, status := "pending", paymentStatus := "pending",
    monthlyCost := 30000, paymentIntentId := some "pi3", leftAt := false,
    paymentCompletedAt := false }

/-- A database whose only group is already at full active capacity (2 of 2)
while a third, `pending` participant still holds a payment intent. -/
def dbFull : DB :=
  { sharings := [groupOne], participants := [memberOne, memberTwo, memberThreePending],
    paymentLogs := [{ userId := some 3, sharingId := some 1, ltype := "sharing_join",
                      stripeId := none, stripePaymentIntentId := some "pi3",
                      amount := some 30000, status := "requires_payment_method",
                      completedAt := false, failureReason := none }],
    subscriptions := [], refunds := [] }

/-- The same group while still `recruiting`, already holding two active
participants. -/
def dbRecruitingFull : DB :=
  { sharings := [{ groupOne with status := "recruiting", startedAt := false }],
    participants := [memberOne, memberTwo], paymentLogs := [],
    subscriptions := [], refunds := [] }

/-- A recruiting group with a free slot (capacity 3, one active member),
the happy-path input of the join route. -/
def dbJoinOpen : DB :=
  { sharings := [{ sid := 10, creatorId := 1, serviceType := "claude-pro",
                   customPrice := none, maxParticipants := 3,
                   status := "recruiting", startedAt := false,
                   currentParticipants := 0 }],
    participants := [{ sharingId := 10, userId := 1, status := "active",
                       paymentStatus := "pending", monthlyCost := 6900,
                       paymentIntentId := none, leftAt := false,
                       paymentCompletedAt := false }],
    paymentLogs := [], subscriptions := [], refunds := [] }

/-- The payment intent created by the join route for user 3 joining
group 1: metadata carries only the snake_case correlation keys. -/
def joinIntentThree : IntentObj :=
  { id := "pi3", metadata := joinIntentMetadata 1 3, lastPaymentError := none }

/-- A payment intent for user 3 in group 1 whose metadata uses the
camelCase keys the webhook handlers actually read. -/
def camelIntentThree : IntentObj :=
  { id := "pi3",
    metadata := { userId := some 3, sharingId := some 1,
                  snakeSharingId := none, snakeUserId := none },
    lastPaymentError := none }

/-- A gateway subscription object for user 3 in group 1 reporting status
`past_due`. -/
def subPastDue : SubObj :=
  { id := "sub_3", status := "past_due", cancelAtPeriodEnd := false,
    metadata := { userId := some 3, sharingId := some 1,
                  snakeSharingId := none, snakeUserId := none } }

/-- A gateway subscription object for user 3 in group 1 reporting status
`active`. -/
def subActive : SubObj :=
  { id := "sub_3", status := "active", cancelAtPeriodEnd := false,
    metadata := { userId := some 3, sharingId := some 1,
                  snakeSharingId := none, snakeUserId := none } }

/-- Whether a join outcome is the documented 200 success response. -/
def JoinResult.isSuccess : JoinResult → Bool
  | .success _ _ _ => true
  | _ => false

/-! ## Helper lemmas -/

/-- Mapping an idempotent function twice is the same as mapping it once. -/
theorem map_idem_of_idem {α : Type} (f : α → α) (hf : ∀ a, f (f a) = f a)
    (l : List α) : (l.map f).map f = l.map f := by
  rw [List.map_map]
  exact List.map_congr_left (fun a _ => hf a)

/-- The join route leaves the database unchanged on every path. -/
theorem joinHandler_fst (db : DB) (sid uid : Nat) (ok : Bool) :
    (joinHandler db sid uid ok).1 = db := by
  unfold joinHandler
  cases joinGroupLookup db sid with
  | none => rfl
  | some s =>
      by_cases h1 : joinAlreadyJoined db sid uid
      · simp [h1]
      · by_cases h2 : s.maxParticipants ≤ activeParticipantCount db sid
        · simp [h1, h2]
        · cases ok <;> simp [h1, h2]

/-- The join route never produces the success outcome. -/
theorem joinHandler_no_success (db : DB) (sid uid : Nat) (ok : Bool) :
    ((joinHandler db sid uid ok).2).isSuccess = false := by
  unfold joinHandler
  cases joinGroupLookup db sid with
  | none => rfl
  | some s =>
      by_cases h1 : joinAlreadyJoined db sid uid
      · simp [h1, JoinResult.isSuccess]
      · by_cases h2 : s.maxParticipants ≤ activeParticipantCount db sid
        · simp [h1, h2, JoinResult.isSuccess]
        · cases ok <;> simp [h1, h2, JoinResult.isSuccess]

/-- The payment-failed handler touches only the payment-log list. -/
theorem handlePaymentFailed_frame (db : DB) (o : IntentObj) :
    (handlePaymentFailed db o).participants = db.participants ∧
    (handlePaymentFailed db o).sharings = db.sharings ∧
    (handlePaymentFailed db o).subscriptions = db.subscriptions ∧
    (handlePaymentFailed db o).refunds = db.refunds :=
  ⟨rfl, rfl, rfl, rfl⟩

/-- The participants produced by the payment-success handler, as a function
of the input participants. -/
theorem handlePaymentSuccess_participants (db : DB) (o : IntentObj) :
    (handlePaymentSuccess db o).participants =
      match o.metadata.sharingId with
      | none => db.participants
      | some sid =>
          db.participants.map (participantStatusRowUpdate sid o.metadata.userId "paid") := by
  unfold handlePaymentSuccess
  cases o.metadata.sharingId with
  | none => rfl
  | some sid =>
      simp only []
      split <;> rfl

/-- The payment-success handler reads only the participant list of its
input when computing the output participant list. -/
theorem handlePaymentSuccess_participants_congr (db1 db2 : DB) (o : IntentObj)
    (h : db1.participants = db2.participants) :
    (handlePaymentSuccess db1 o).participants =
      (handlePaymentSuccess db2 o).participants := by
  rw [handlePaymentSuccess_participants, handlePaymentSuccess_participants, h]

/-- One payment-log row update is idempotent. -/
theorem paymentLogRowUpdate_idem (i : String) (st : Option String) (c : Bool)
    (fr : Option String) (l : PaymentLog) :
    paymentLogRowUpdate i st c fr (paymentLogRowUpdate i st c fr l) =
      paymentLogRowUpdate i st c fr l := by
  unfold paymentLogRowUpdate
  by_cases h : l.stripeId == some i
  · cases st <;> cases fr <;> simp [h, Bool.or_assoc]
  · simp [h]

/-- One participant status row update is idempotent. -/
theorem participantStatusRowUpdate_idem (sid : Nat) (uid : Option Nat)
    (st : String) (p : Participant) :
    participantStatusRowUpdate sid uid st (participantStatusRowUpdate sid uid st p) =
      participantStatusRowUpdate sid uid st p := by
  unfold participantStatusRowUpdate
  by_cases h : p.sharingId == sid && some p.userId == uid
  · simp [h]
  · simp [h]

/-- One group activation row update is idempotent. -/
theorem sharingActivateRowUpdate_idem (sid : Nat) (s : Sharing) :
    sharingActivateRowUpdate sid (sharingActivateRowUpdate sid s) =
      sharingActivateRowUpdate sid s := by
  unfold sharingActivateRowUpdate
  by_cases h : s.sid == sid
  · simp [h]
  · simp [h]

/-- The group-completeness check reads only the participant list. -/
theorem checkSharingGroupPaymentComplete_congr (db1 db2 : DB) (sid : Nat)
    (h : db1.participants = db2.participants) :
    checkSharingGroupPaymentComplete db1 sid =
      checkSharingGroupPaymentComplete db2 sid := by
  unfold checkSharingGroupPaymentComplete
  rw [h]

/-- The payment logs produced by the payment-success handler. -/
theorem handlePaymentSuccess_paymentLogs (db : DB) (o : IntentObj) :
    (handlePaymentSuccess db o).paymentLogs =
      db.paymentLogs.map (paymentLogRowUpdate o.id (some "succeeded") true none) := by
  unfold handlePaymentSuccess
  cases o.metadata.sharingId with
  | none => rfl
  | some sid =>
      simp only []
      split <;> rfl

/-- The payment-success handler does not touch subscriptions or refunds. -/
theorem handlePaymentSuccess_rest (db : DB) (o : IntentObj) :
    (handlePaymentSuccess db o).subscriptions = db.subscriptions ∧
    (handlePaymentSuccess db o).refunds = db.refunds := by
  unfold handlePaymentSuccess
  cases o.metadata.sharingId with
  | none => exact ⟨rfl, rfl⟩
  | some sid =>
      constructor <;> (simp only []; split <;> rfl)

/-- The group rows produced by the payment-success handler. -/
theorem handlePaymentSuccess_sharings (db : DB) (o : IntentObj) :
    (handlePaymentSuccess db o).sharings =
      match o.metadata.sharingId with
      | none => db.sharings
      | some sid =>
          if checkSharingGroupPaymentComplete
              (updateSharingParticipantStatus
                (updatePaymentLog db o.id (some "succeeded") true none)
                sid o.metadata.userId "paid") sid then
            db.sharings.map (sharingActivateRowUpdate sid)
          else db.sharings := by
  unfold handlePaymentSuccess
  cases o.metadata.sharingId with
  | none => rfl
  | some sid =>
      simp only []
      split_ifs <;> rfl

/-- Replaying a payment-success event is a no-op: the handler only sets
states, so applying it twice gives the same database as applying it
once. -/
theorem handlePaymentSuccess_idem (db : DB) (o : IntentObj) :
    handlePaymentSuccess (handlePaymentSuccess db o) o = handlePaymentSuccess db o := by
  cases hmd : o.metadata.sharingId with
  | none =>
      have h1 : handlePaymentSuccess db o
          = updatePaymentLog db o.id (some "succeeded") true none := by
        unfold handlePaymentSuccess; rw [hmd]
      have h2 : handlePaymentSuccess (handlePaymentSuccess db o) o
          = updatePaymentLog (handlePaymentSuccess db o) o.id (some "succeeded") true none := by
        unfold handlePaymentSuccess; rw [hmd]
      rw [h2, h1]
      unfold updatePaymentLog
      simp only []
      rw [DB.mk.injEq]
      exact ⟨rfl, rfl, map_idem_of_idem _ (paymentLogRowUpdate_idem o.id _ _ _) _, rfl, rfl⟩
  | some sid =>
      have hpart : (handlePaymentSuccess (handlePaymentSuccess db o) o).participants
          = (handlePaymentSuccess db o).participants := by
        rw [handlePaymentSuccess_participants, handlePaymentSuccess_participants, hmd]
        simp only []
        exact map_idem_of_idem _ (participantStatusRowUpdate_idem sid o.metadata.userId "paid")
          db.participants
      have hb : checkSharingGroupPaymentComplete
            (updateSharingParticipantStatus
              (updatePaymentLog (handlePaymentSuccess db o) o.id (some "succeeded") true none)
              sid o.metadata.userId "paid") sid
          = checkSharingGroupPaymentComplete
            (updateSharingParticipantStatus
              (updatePaymentLog db o.id (some "succeeded") true none)
              sid o.metadata.userId "paid") sid := by
        apply checkSharingGroupPaymentComplete_congr
        show ((handlePaymentSuccess db o).participants.map _) = (db.participants.map _)
        rw [handlePaymentSuccess_participants, hmd]
        simp only []
        exact map_idem_of_idem _ (participantStatusRowUpdate_idem sid o.metadata.userId "paid")
          db.participants
      apply DB.ext
      · -- sharings
        rw [handlePaymentSuccess_sharings, handlePaymentSuccess_sharings, hmd]
        simp only []
        rw [hb]
        split_ifs with hc
        · exact map_idem_of_idem _ (sharingActivateRowUpdate_idem sid) db.sharings
        · rfl
      · exact hpart
      · -- payment logs
        rw [handlePaymentSuccess_paymentLogs, handlePaymentSuccess_paymentLogs]
        exact map_idem_of_idem _ (paymentLogRowUpdate_idem o.id _ _ _) db.paymentLogs
      · rw [(handlePaymentSuccess_rest _ o).1, (handlePaymentSuccess_rest _ o).1]
      · rw [(handlePaymentSuccess_rest _ o).2, (handlePaymentSuccess_rest _ o).2]

/-- Membership transport for a mapped participant list: a property of the
status survives mapping when the row function preserves it pointwise. -/
theorem forall_status_map (P : String → Prop) (l : List Participant)
    (f : Participant → Participant)
    (hf : ∀ p, P p.status → P (f p).status)
    (h : ∀ p ∈ l, P p.status) : ∀ p ∈ l.map f, P p.status := by
  intro p hp
  obtain ⟨q, hq, rfl⟩ := List.mem_map.mp hp
  exact hf q (h q hq)

/-- The participant status row update writes `st` or keeps the status. -/
theorem participantStatusRowUpdate_pointwise (P : String → Prop) (sid : Nat)
    (uid : Option Nat) (st : String) (hst : P st) :
    ∀ p : Participant, P p.status → P (participantStatusRowUpdate sid uid st p).status := by
  intro p hp
  unfold participantStatusRowUpdate
  split
  · exact hst
  · exact hp

/-- The payment-status row update never changes the status column. -/
theorem participantPayStatusRowUpdate_pointwise (P : String → Prop) (sid : Nat)
    (uid : Option Nat) (st : String) :
    ∀ p : Participant, P p.status → P (participantPayStatusRowUpdate sid uid st p).status := by
  intro p hp
  unfold participantPayStatusRowUpdate
  split
  · exact hp
  · exact hp

/-- The confirm-payment row update writes `active` or keeps the status. -/
theorem confirmParticipantRowUpdate_pointwise (P : String → Prop) (sid uid : Nat)
    (iid : String) (hst : P "active") :
    ∀ p : Participant, P p.status → P (confirmParticipantRowUpdate sid uid iid p).status := by
  intro p hp
  unfold confirmParticipantRowUpdate
  split
  · exact hst
  · exact hp

/-- The leave row update writes `left` or keeps the status. -/
theorem leaveRowUpdate_pointwise (P : String → Prop) (sid uid : Nat)
    (hst : P "left") :
    ∀ p : Participant, P p.status → P (leaveRowUpdate sid uid p).status := by
  intro p hp
  unfold leaveRowUpdate
  split
  · exact hst
  · exact hp

/-- Every status value any modelled operation writes into the participant
table is one of `active`, `left`, `paid`, `past_due`, `canceled`: a status
property that holds of these five constants and of the initial rows holds
after any operation. -/
theorem applyOp_status_closure (P : String → Prop)
    (hA : P "active") (hL : P "left") (hPd : P "paid")
    (hPD : P "past_due") (hC : P "canceled")
    (db : DB) (op : SysOp)
    (h : ∀ p ∈ db.participants, P p.status) :
    ∀ p ∈ (applyOp db op).participants, P p.status := by
  cases op with
  | joinReq sid uid ok =>
      rw [applyOp, joinHandler_fst]
      exact h
  | confirmReq sid uid iid gw =>
      rw [applyOp]
      unfold confirmPayment
      by_cases hgw : gw != "succeeded"
      · simp only [hgw, if_true]
        exact h
      · simp only [hgw, Bool.false_eq_true, if_false]
        cases hf : db.sharings.find? (fun s => s.sid == sid) with
        | none => exact h
        | some s =>
            simp only []
            exact forall_status_map P _ _
              (confirmParticipantRowUpdate_pointwise P sid uid iid hA) h
  | leaveReq sid uid dim dp rf =>
      rw [applyOp]
      unfold leaveHandler
      cases hl : leaveLookup db sid uid with
      | none => exact h
      | some ps =>
          obtain ⟨p, s⟩ := ps
          by_cases hc : s.creatorId == uid
          · simp only [hc, if_true]
            exact h
          · cases rf <;>
              · simp only [hc, Bool.false_eq_true, if_false, processRefund,
                  activeParticipantCount]
                split_ifs <;>
                  exact forall_status_map P _ _
                    (leaveRowUpdate_pointwise P sid uid hL) h
  | webhookDelivery sv e =>
      cases sv with
      | false => exact h
      | true =>
          show ∀ p ∈ (handleWebhookEvent db e).participants, P p.status
          cases e with
          | intentSucceeded eid t o =>
              rw [show handleWebhookEvent db (.intentSucceeded eid t o)
                  = handlePaymentSuccess db o from rfl,
                handlePaymentSuccess_participants]
              cases hmd : o.metadata.sharingId with
              | none => exact h
              | some sid =>
                  simp only []
                  exact forall_status_map P _ _
                    (participantStatusRowUpdate_pointwise P sid o.metadata.userId "paid" hPd) h
          | intentFailed eid t o => exact h
          | invoicePaid eid t o =>
              show ∀ p ∈ (handleInvoicePaymentSuccess db o).participants, P p.status
              unfold handleInvoicePaymentSuccess
              cases hmd : o.metadata.sharingId with
              | none => exact h
              | some sid =>
                  simp only []
                  exact forall_status_map P _ _
                    (participantPayStatusRowUpdate_pointwise P sid o.metadata.userId "paid") h
          | invoiceFailed eid t o =>
              show ∀ p ∈ (handleInvoicePaymentFailed db o).participants, P p.status
              unfold handleInvoicePaymentFailed
              cases hmd : o.metadata.sharingId with
              | none => exact h
              | some sid =>
                  simp only []
                  exact forall_status_map P _ _
                    (participantPayStatusRowUpdate_pointwise P sid o.metadata.userId "failed") h
          | subUpdated eid t o =>
              show ∀ p ∈ (handleSubscriptionUpdated db o).participants, P p.status
              unfold handleSubscriptionUpdated savePaymentLog
              split_ifs <;>
                cases hmd : o.metadata.sharingId <;>
                  simp only [] <;>
                    first
                      | exact h
                      | exact forall_status_map P _ _
                          (participantStatusRowUpdate_pointwise P _ o.metadata.userId "active" hA) h
                      | exact forall_status_map P _ _
                          (participantStatusRowUpdate_pointwise P _ o.metadata.userId "past_due" hPD) h
                      | exact forall_status_map P _ _
                          (participantStatusRowUpdate_pointwise P _ o.metadata.userId "canceled" hC) h
          | subDeleted eid t o =>
              show ∀ p ∈ (handleSubscriptionDeleted db o).participants, P p.status
              unfold handleSubscriptionDeleted savePaymentLog removeSharingParticipant
              cases hmd : o.metadata.sharingId with
              | none => exact h
              | some sid =>
                  simp only []
                  exact forall_status_map P _ _
                    (participantStatusRowUpdate_pointwise P sid o.metadata.userId "left" hL) h
          | unhandled eid t ty => exact h

/-! ## Claim C6 — proration formula -/

/-- C6: the leave route's pro-rated refund `calculateProRatedRefund` equals
the spec formula `round(monthly_cost / days_in_billing_month ×
days_remaining)` (whenever at most the whole month has passed), and for a
30-day month with monthly cost 30000 and 10 days remaining the refund is
10000. -/
theorem proration_matches_spec_formula :
    (∀ (m : Int) (dim dp : Nat), dp ≤ dim →
      calculateProRatedRefund m dim dp = specRefundFormula m dim (dim - dp)) ∧
    calculateProRatedRefund 30000 30 20 = 10000 := by
  constructor
  · intro m dim dp h
    unfold calculateProRatedRefund specRefundFormula
    rw [Nat.cast_sub h]
  · norm_num [calculateProRatedRefund]

/-- C6 witness: the general formula conjunct applied at the claim's own
numbers (20 of 30 days passed, so 10 remaining). -/
theorem proration_matches_spec_formula_witness :
    calculateProRatedRefund 30000 30 20 = specRefundFormula 30000 30 10 :=
  proration_matches_spec_formula.1 30000 30 20 (by decide)

/-! ## Claim C8 — invalid webhook signature -/

/-- C8: when signature verification fails, the webhook endpoint answers
HTTP 400 and the database is returned unchanged — no event is
dispatched, so participants, groups, subscriptions and payment logs are
all untouched. -/
theorem webhook_bad_signature_rejected (db : DB) (e : WebhookEvent) :
    webhookEndpoint db false e = (db, 400) := rfl

/-! ## Claim C4 — the join route -/

/-- C4: the join route can never produce its documented success response.
On every input the database is returned unchanged and the outcome is an
error; in particular, on a recruiting group with a free slot, a fresh user
and a successful gateway intent creation, the route still answers the
catch-all 500 (`paymentIntent` is a `const` local to the inner `try` block,
so the participant insert that follows it throws `ReferenceError` and the
transaction rolls back). -/
theorem join_route_broken :
    (∀ (db : DB) (sid uid : Nat) (ok : Bool),
        (joinHandler db sid uid ok).1 = db ∧
        ((joinHandler db sid uid ok).2).isSuccess = false) ∧
    joinHandler dbJoinOpen 10 5 true = (dbJoinOpen, .serverError) := by
  refine ⟨fun db sid uid ok => ⟨joinHandler_fst db sid uid ok,
    joinHandler_no_success db sid uid ok⟩, by decide⟩

/-! ## Claim C7 — intent-failed handling -/

/-- C7 (amended): processing `payment_intent.payment_failed` updates only
the payment log; the participant row is untouched (its status is never set
to `payment_failed`) and group rows — hence capacity counts — are
unaffected. -/
theorem intent_failed_updates_only_payment_log (db : DB) (eid : String)
    (t : Nat) (o : IntentObj) :
    (handleWebhookEvent db (.intentFailed eid t o)).participants = db.participants ∧
    (handleWebhookEvent db (.intentFailed eid t o)).sharings = db.sharings ∧
    (handleWebhookEvent db (.intentFailed eid t o)).subscriptions = db.subscriptions ∧
    (handleWebhookEvent db (.intentFailed eid t o)).refunds = db.refunds :=
  ⟨rfl, rfl, rfl, rfl⟩

/-- C7 counterexample: an intent-failed event for the pending participant
of `dbFull` leaves that participant `pending` — it does not become
`payment_failed`, and no participant of the result carries that status. -/
theorem intent_failed_no_mark_cx :
    ((handleWebhookEvent dbFull (.intentFailed "evt_f1" 50 camelIntentThree)).participants.map
        (fun p => p.status)) = ["active", "active", "pending"] ∧
    (((handleWebhookEvent dbFull (.intentFailed "evt_f1" 50 camelIntentThree)).participants.map
        (fun p => p.status)).contains "payment_failed") = false := by decide

/-- After mapping the leave update over any row list, every row of the
leaver is marked `left`. -/
theorem leaveRowUpdate_all_left (sid uid : Nat) (l : List Participant) :
    ((l.map (leaveRowUpdate sid uid)).all (fun q =>
      !(q.sharingId == sid && q.userId == uid) || q.status == "left")) = true := by
  rw [List.all_eq_true]
  intro q hq
  obtain ⟨r, hr, rfl⟩ := List.mem_map.mp hq
  unfold leaveRowUpdate
  by_cases h : r.sharingId == sid && r.userId == uid
  · simp [h]
  · simp [h]

/-- The refund insert touches no table but the refunds list. -/
theorem processRefund_fst_participants (db : DB) (uid : Nat) (amt : Int)
    (sid : Nat) (b : Bool) :
    (processRefund db uid amt sid b).1.participants = db.participants := by
  cases b <;> rfl

/-- The refund insert leaves the group rows unchanged. -/
theorem processRefund_fst_sharings (db : DB) (uid : Nat) (amt : Int)
    (sid : Nat) (b : Bool) :
    (processRefund db uid amt sid b).1.sharings = db.sharings := by
  cases b <;> rfl

/-- The active-participant count is insensitive to the refund insert. -/
theorem activeParticipantCount_processRefund (db : DB) (uid : Nat) (amt : Int)
    (sid : Nat) (b : Bool) (sid2 : Nat) :
    activeParticipantCount (processRefund db uid amt sid b).1 sid2 =
      activeParticipantCount db sid2 := by
  cases b <;> rfl

/-! ## Claim C5 — leave and refund failure -/

/-- C5 (amended): the leave route ignores the outcome of `processRefund`
(which catches its own errors and never throws): whether the refund insert
fails changes nothing but the refunds table — the response, the participant
rows and the group rows are identical — and whenever the lookup succeeds
and the caller is not the creator, the leave is finalized unconditionally
(the leaver's rows are marked `left`) with
`refund_processed = (group status == 'active')`, which reports that a
refund was attempted, not that one was issued. -/
theorem leave_ignores_refund_outcome :
    (∀ (db : DB) (sid uid dim dp : Nat),
        (leaveHandler db sid uid dim dp true).2 =
          (leaveHandler db sid uid dim dp false).2 ∧
        (leaveHandler db sid uid dim dp true).1.participants =
          (leaveHandler db sid uid dim dp false).1.participants ∧
        (leaveHandler db sid uid dim dp true).1.sharings =
          (leaveHandler db sid uid dim dp false).1.sharings) ∧
    (∀ (db : DB) (sid uid dim dp : Nat) (rf : Bool) (p : Participant) (s : Sharing),
        leaveLookup db sid uid = some (p, s) →
        (s.creatorId == uid) = false →
        (leaveHandler db sid uid dim dp rf).2 =
          .success (s.status == "active") (activeParticipantCount db sid) ∧
        ((leaveHandler db sid uid dim dp rf).1.participants.all (fun q =>
            !(q.sharingId == sid && q.userId == uid) || q.status == "left")) = true) := by
  constructor
  · intro db sid uid dim dp
    unfold leaveHandler
    cases h : leaveLookup db sid uid with
    | none => exact ⟨rfl, rfl, rfl⟩
    | some ps =>
        obtain ⟨p, s⟩ := ps
        by_cases hc : s.creatorId == uid
        · simp [hc]
        · simp only [hc, Bool.false_eq_true, if_false, processRefund,
            activeParticipantCount]
          split_ifs <;> exact ⟨rfl, rfl, rfl⟩
  · intro db sid uid dim dp rf p s h hc
    cases rf <;>
      · unfold leaveHandler
        rw [h]
        simp only [hc, Bool.false_eq_true, if_false, processRefund,
          activeParticipantCount]
        split_ifs <;> exact ⟨rfl, leaveRowUpdate_all_left sid uid _⟩

/-- C5 witness: the finalization conjunct applied to `dbFull`, user 2
leaving with the refund insert failing. -/
theorem leave_ignores_refund_outcome_witness :
    (leaveHandler dbFull 1 2 30 20 true).2 =
      LeaveResult.success (groupOne.status == "active") (activeParticipantCount dbFull 1) ∧
    ((leaveHandler dbFull 1 2 30 20 true).1.participants.all (fun q =>
        !(q.sharingId == 1 && q.userId == 2) || q.status == "left")) = true :=
  leave_ignores_refund_outcome.2 dbFull 1 2 30 20 true memberTwo groupOne
    (by decide) (by decide)

/-- C5 counterexample: user 2 leaves the active group of `dbFull` while the
refund insert fails; the leave is still finalized (the participant becomes
`left`), the response reports success with `refund_processed = true`, and no
refund row exists — against the same leave with the insert succeeding,
which records a 10000 KRW refund. -/
theorem leave_refund_failure_cx :
    (leaveHandler dbFull 1 2 30 20 true).2 = .success true 2 ∧
    ((leaveHandler dbFull 1 2 30 20 true).1.participants.map (fun p => p.status))
      = ["active", "left", "pending"] ∧
    (leaveHandler dbFull 1 2 30 20 true).1.refunds = [] ∧
    (leaveHandler dbFull 1 2 30 20 false).1.refunds =
      [{ userId := 2, amount := 10000, sharingId := 1, status := "completed" }] := by
  norm_num [leaveHandler, leaveLookup, activeParticipantCount,
    calculateProRatedRefund, processRefund, leaveRowUpdate, demoteRowUpdate,
    dbFull, groupOne, memberOne, memberTwo, memberThreePending]
  decide

/-! ## Claim C1 — capacity -/

/-- C1 (amended): capacity is checked only by the join route, and only
against the count of `active` participants — with the group found
recruiting and the user not already joined, join answers `GroupFull`
exactly when the active count has reached `max_participants` (pending
participants reserve no capacity) — while confirm-payment applies its
transition with no capacity check at all: with the gateway reporting the
intent succeeded, every participant row matching the intent is set
`active` and the route answers success, so a confirmation can push the
active count past `max_participants`. -/
theorem capacity_checked_only_at_join :
    (∀ (db : DB) (sid uid : Nat) (ok : Bool) (s : Sharing),
        joinGroupLookup db sid = some s →
        joinAlreadyJoined db sid uid = false →
        ((joinHandler db sid uid ok).2 = .groupFull ↔
          s.maxParticipants ≤ activeParticipantCount db sid)) ∧
    (∀ (db : DB) (sid uid : Nat) (iid : String) (s : Sharing),
        db.sharings.find? (fun t => t.sid == sid) = some s →
        (confirmPayment db sid uid iid "succeeded").1.participants =
          db.participants.map (confirmParticipantRowUpdate sid uid iid) ∧
        (confirmPayment db sid uid iid "succeeded").2 =
          .success
            (if s.maxParticipants ≤ activeParticipantCount db sid then "active"
             else "recruiting")
            (activeParticipantCount db sid)) := by
  constructor
  · intro db sid uid ok s h1 h2
    unfold joinHandler
    rw [h1, h2]
    by_cases hcap : s.maxParticipants ≤ activeParticipantCount db sid
    · simp [hcap]
    · cases ok <;> simp [hcap]
  · intro db sid uid iid s hfind
    unfold confirmPayment
    rw [hfind]
    exact ⟨rfl, rfl⟩

/-- C1 witness: in `dbRecruitingFull` (recruiting, 2 active of capacity 2)
a join by fresh user 9 is rejected as `GroupFull`. -/
theorem capacity_checked_only_at_join_witness :
    (joinHandler dbRecruitingFull 1 9 true).2 = JoinResult.groupFull :=
  (capacity_checked_only_at_join.1 dbRecruitingFull 1 9 true
    { groupOne with status := "recruiting", startedAt := false }
    (by decide) (by decide)).mpr (by decide)

/-- C1 counterexample: `dbFull` satisfies the capacity invariant (2 active
of capacity 2, one pending); confirming the pending participant's payment
intent succeeds and raises the active count to 3 > 2, violating the
invariant — no later confirmation guard exists. -/
theorem confirm_overfills_capacity_cx :
    capacityInvariant dbFull = true ∧
    (confirmPayment dbFull 1 3 "pi3" "succeeded").2 = .success "active" 2 ∧
    activeParticipantCount (confirmPayment dbFull 1 3 "pi3" "succeeded").1 1 = 3 ∧
    capacityInvariant (confirmPayment dbFull 1 3 "pi3" "succeeded").1 = false := by
  decide

/-! ## Claim C2 — webhook replay -/

/-- C2 (amended): webhook processing performs no replay detection — the
external event ID is never read, so re-delivery re-executes the handler.
Replaying a `payment_intent.succeeded` event happens to converge because
its handler only sets states, but every delivery of a
`customer.subscription.updated` event appends one more payment-log entry,
so replays of subscription events are not no-ops. -/
theorem webhook_no_replay_detection :
    (∀ (db : DB) (e : WebhookEvent) (a : String),
        handleWebhookEvent db (e.withEventId a) = handleWebhookEvent db e) ∧
    (∀ (db : DB) (eid : String) (t : Nat) (s : SubObj),
        (handleWebhookEvent db (.subUpdated eid t s)).paymentLogs.length =
          db.paymentLogs.length + 1) ∧
    (∀ (db : DB) (eid eid2 : String) (t t2 : Nat) (o : IntentObj),
        handleWebhookEvent (handleWebhookEvent db (.intentSucceeded eid t o))
            (.intentSucceeded eid2 t2 o) =
          handleWebhookEvent db (.intentSucceeded eid t o)) := by
  refine ⟨?_, ?_, ?_⟩
  · intro db e a; cases e <;> rfl
  · intro db eid t s
    show (handleSubscriptionUpdated db s).paymentLogs.length = _
    unfold handleSubscriptionUpdated savePaymentLog
    split_ifs <;>
      cases s.metadata.sharingId <;>
        simp [List.length_append, updateSharingParticipantStatus,
          updateSubscriptionStatus]
  · intro db eid eid2 t t2 o
    exact handlePaymentSuccess_idem db o

/-- C2 counterexample: delivering the same `customer.subscription.updated`
event (event ID `evt_9`) twice to `dbFull` appends a payment-log entry both
times — the final state differs from processing the event once, so the
replay is not detected and is not a no-op. -/
theorem webhook_replay_duplicates_log_cx :
    (handleWebhookEvent dbFull (.subUpdated "evt_9" 7 subActive)).paymentLogs.length = 2 ∧
    (handleWebhookEvent (handleWebhookEvent dbFull (.subUpdated "evt_9" 7 subActive))
        (.subUpdated "evt_9" 7 subActive)).paymentLogs.length = 3 ∧
    ((handleWebhookEvent (handleWebhookEvent dbFull (.subUpdated "evt_9" 7 subActive))
        (.subUpdated "evt_9" 7 subActive) ==
      handleWebhookEvent dbFull (.subUpdated "evt_9" 7 subActive)) = false) := by
  decide

/-! ## Claim C3 — event ordering and timestamps -/

/-- C3 (amended): the reconciler never reads event timestamps — replacing
an event's timestamp does not change processing — and an intent-failed
event never modifies the participant table, so after a success and a
failure for the same participant, in either delivery order and for any
timestamps, the participant table is exactly what the success event alone
produces (the success handler writes `paid`, not `active`; a
later-timestamped failure does not win). -/
theorem webhook_ignores_timestamps :
    (∀ (db : DB) (e : WebhookEvent) (t : Nat),
        handleWebhookEvent db (e.withOccurredAt t) = handleWebhookEvent db e) ∧
    (∀ (db : DB) (e1 e2 : String) (t1 t2 : Nat) (o o2 : IntentObj),
        (handleWebhookEvent (handleWebhookEvent db (.intentSucceeded e1 t1 o))
            (.intentFailed e2 t2 o2)).participants =
          (handleWebhookEvent db (.intentSucceeded e1 t1 o)).participants ∧
        (handleWebhookEvent (handleWebhookEvent db (.intentFailed e2 t2 o2))
            (.intentSucceeded e1 t1 o)).participants =
          (handleWebhookEvent db (.intentSucceeded e1 t1 o)).participants) := by
  constructor
  · intro db e t; cases e <;> rfl
  · intro db e1 e2 t1 t2 o o2
    exact ⟨rfl, handlePaymentSuccess_participants_congr _ _ _ rfl⟩

/-- C3 counterexample: delivering intent-succeeded (timestamp 100) and then
a stale intent-failed (timestamp 50) for the pending participant of
`dbFull` leaves that participant with status `paid` — not the spec's
`active`, and not `payment_failed` either; the timestamps play no role. -/
theorem stale_failed_after_success_cx :
    ((handleWebhookEvent (handleWebhookEvent dbFull
        (.intentSucceeded "evt_s" 100 camelIntentThree))
        (.intentFailed "evt_f" 50 camelIntentThree)).participants.map
        (fun p => p.status)) = ["active", "active", "paid"] ∧
    (("paid" == "active") = false) ∧
    (("paid" == "payment_failed") = false) := by decide

/-! ## Claim C9 — the set of participant statuses -/

/-- C9 (amended): the statuses actually written by the modelled operations
are `active`, `left`, `paid`, `past_due` and `canceled`; together with the
initial `pending` they close the reachable status set — which is not the
spec's set: `paid`, `past_due` and `canceled` are extra, and
`payment_failed` is never written. -/
theorem written_statuses_closed_under_ops (db : DB) (op : SysOp)
    (h : (db.participants.all
      (fun p => writtenParticipantStatuses.contains p.status)) = true) :
    ((applyOp db op).participants.all
      (fun p => writtenParticipantStatuses.contains p.status)) = true := by
  rw [List.all_eq_true] at h ⊢
  exact applyOp_status_closure
    (fun st => writtenParticipantStatuses.contains st = true)
    (by decide) (by decide) (by decide) (by decide) (by decide) db op h

/-- C9 witness: the closure applied to `dbFull` and a subscription-updated
delivery reporting `past_due`. -/
theorem written_statuses_closed_under_ops_witness :
    ((applyOp dbFull (SysOp.webhookDelivery true
        (.subUpdated "evt_7" 5 subPastDue))).participants.all
      (fun p => writtenParticipantStatuses.contains p.status)) = true :=
  written_statuses_closed_under_ops dbFull
    (SysOp.webhookDelivery true (.subUpdated "evt_7" 5 subPastDue)) (by decide)

/-- C9 counterexample: all participants of `dbFull` carry spec statuses,
but one `customer.subscription.updated` delivery reporting `past_due`
writes the status `past_due`, which is outside the spec's set
`{pending, active, payment_failed, left}`. -/
theorem subscription_event_writes_pastdue_cx :
    (dbFull.participants.all
      (fun p => specParticipantStatuses.contains p.status)) = true ∧
    ((handleWebhookEvent dbFull (.subUpdated "evt_7" 5 subPastDue)).participants.all
      (fun p => specParticipantStatuses.contains p.status)) = false ∧
    ((handleWebhookEvent dbFull (.subUpdated "evt_7" 5 subPastDue)).participants.map
      (fun p => p.status)) = ["active", "active", "past_due"] := by decide

/-! ## Claim C10 — the join-intent webhook path is inert -/

/-- With no `approved` participant anywhere, the group-completeness check
is false for every group. -/
theorem check_false_of_no_approved (db : DB) (sid : Nat)
    (h : (db.participants.all (fun p => p.status != "approved")) = true) :
    checkSharingGroupPaymentComplete db sid = false := by
  rw [List.all_eq_true] at h
  unfold checkSharingGroupPaymentComplete
  have hnil : db.participants.filter
      (fun p => p.sharingId == sid && p.status == "approved") = [] := by
    rw [List.filter_eq_nil_iff]
    intro p hp
    have hpa := h p hp
    simp only [bne_iff_ne, ne_eq] at hpa
    simp [hpa]
  rw [hnil]
  rfl

/-- Absence of `approved` rows survives the payment-success participant
update (which writes `paid`). -/
theorem no_approved_after_paid (db : DB) (sid : Nat) (uid : Option Nat)
    (h : (db.participants.all (fun p => p.status != "approved")) = true) :
    ((db.participants.map (participantStatusRowUpdate sid uid "paid")).all
      (fun p => p.status != "approved")) = true := by
  rw [List.all_eq_true] at h ⊢
  exact forall_status_map (fun st => (st != "approved") = true) _ _
    (participantStatusRowUpdate_pointwise (fun st => (st != "approved") = true) sid uid "paid" (by decide)) h

/-- C10: a `payment_intent.succeeded` webhook for an intent created by the
join route (metadata keys `sharing_id`/`user_id` only) changes neither the
participant table nor the group table, because the handler reads the absent
camelCase keys; moreover the completeness check counts only `approved`
participants, a status no modelled operation ever writes, so in any
database without `approved` rows the check is false, the success handler
never activates a group, and the no-`approved` property is preserved by
every operation. -/
theorem join_intent_webhook_is_inert :
    (∀ (db : DB) (iid eid : String) (t : Nat) (sid uid : Nat) (fr : Option String),
        (handleWebhookEvent db (.intentSucceeded eid t
            { id := iid, metadata := joinIntentMetadata sid uid,
              lastPaymentError := fr })).participants = db.participants ∧
        (handleWebhookEvent db (.intentSucceeded eid t
            { id := iid, metadata := joinIntentMetadata sid uid,
              lastPaymentError := fr })).sharings = db.sharings) ∧
    (∀ (db : DB) (sid : Nat),
        (db.participants.all (fun p => p.status != "approved")) = true →
        checkSharingGroupPaymentComplete db sid = false) ∧
    (∀ (db : DB) (o : IntentObj),
        (db.participants.all (fun p => p.status != "approved")) = true →
        (handlePaymentSuccess db o).sharings = db.sharings) ∧
    (∀ (db : DB) (op : SysOp),
        (db.participants.all (fun p => p.status != "approved")) = true →
        ((applyOp db op).participants.all (fun p => p.status != "approved")) = true) := by
  refine ⟨fun db iid eid t sid uid fr => ⟨rfl, rfl⟩, check_false_of_no_approved, ?_, ?_⟩
  · intro db o h
    rw [handlePaymentSuccess_sharings]
    cases hmd : o.metadata.sharingId with
    | none => rfl
    | some sid =>
        simp only []
        rw [if_neg]
        rw [check_false_of_no_approved _ sid]
        · simp
        · exact no_approved_after_paid db sid o.metadata.userId h
  · intro db op h
    rw [List.all_eq_true] at h ⊢
    exact applyOp_status_closure (fun st => (st != "approved") = true)
      (by decide) (by decide) (by decide) (by decide) (by decide) db op h

/-- C10 witness: the hypothesised conjuncts applied to `dbFull`: the
completeness check of group 1 is false, a camelCase success event still
does not activate the group, and one operation preserves the
no-`approved` property. -/
theorem join_intent_webhook_is_inert_witness :
    checkSharingGroupPaymentComplete dbFull 1 = false ∧
    (handlePaymentSuccess dbFull camelIntentThree).sharings = dbFull.sharings ∧
    ((applyOp dbFull (SysOp.webhookDelivery true
        (.subUpdated "evt_8" 6 subActive))).participants.all
      (fun p => p.status != "approved")) = true :=
  ⟨join_intent_webhook_is_inert.2.1 dbFull 1 (by decide),
   join_intent_webhook_is_inert.2.2.1 dbFull camelIntentThree (by decide),
   join_intent_webhook_is_inert.2.2.2 dbFull
     (SysOp.webhookDelivery true (.subUpdated "evt_8" 6 subActive)) (by decide)⟩

end OneAI
